import Mathlib

/-!
# Verification of `plyflatten` (src/plyflatten/rasterization.py)

Shallow embedding of the Python wrapper `rasterization.py`.  The wrapper
delegates the per-cell aggregation to a native routine
(`lib/libplyflatten.so`, whose C source is not part of the repository
snapshot); everything the Python layer decides — argument flow, array
allocation, shapes, dtypes, the region-of-interest (ROI) derivation, the
output profile, and every exception the call can raise — is embedded here
from the Python source.  Double-precision values are modelled as exact
rationals (`ℚ`); the arithmetic the claims are about (floor/ceil grid
alignment) is exact in both.
-/

namespace Plyflatten

/-- One point of the cloud: x, y, then the extra attribute columns.
A row of the `nb_points × (2+k)` numpy array. -/
abbrev Row := List ℚ

/-- A point cloud: the dense table of rows. -/
abbrev Cloud := List Row

/-- The exceptions the Python code in `rasterization.py` can raise, together
with the error names of the spec taxonomy (§7) so that statements can compare
them.  `valueError` stands for numpy's `ValueError` (zero-size reduction,
negative dimensions, empty concatenate); `attributeError` for Python's
`AttributeError`. -/
inductive PyError where
  | valueError
  | attributeError
  | emptyInputError
  | invalidParameterError
  | invalidShapeError
deriving DecidableEq, Repr

/-- Numpy dtypes occurring in `rasterization.py`. -/
inductive DType where
  | float32
  | float64
deriving DecidableEq, Repr

/-- A numpy array at the shape/dtype level of abstraction: the native kernel
fills the buffers with values, the Python wrapper only ever decides shapes and
dtypes, which is what the shape claims are about.  Dimensions are `ℤ` because
Python computes them with signed arithmetic (`cloud.shape[1] - 2` can be
negative). -/
structure NpArray where
  shape : List ℤ
  dtype : DType
deriving DecidableEq, Repr

/-- `np.zeros(shape, dtype)`: raises `ValueError` ("negative dimensions are
not allowed") when a dimension is negative, otherwise allocates. -/
def npZeros (shape : List ℤ) (dtype : DType) : Except PyError NpArray :=
  if ∀ d ∈ shape, 0 ≤ d then .ok ⟨shape, dtype⟩ else .error .valueError

/-- Number of elements of a shape. -/
def prodShape (shape : List ℤ) : ℤ := shape.foldr (· * ·) 1

/-- `ndarray.reshape(newShape)`: succeeds when no dimension is negative and
the element counts agree, else raises `ValueError`.  (Numpy's `-1` inference
is not modelled: on every path of `rasterization.py` that reaches a reshape,
`np.zeros` on the same dimensions has already succeeded, so a negative target
dimension cannot occur together with a consistent element count.)  The dtype
is preserved. -/
def npReshape (a : NpArray) (newShape : List ℤ) : Except PyError NpArray :=
  if (∀ d ∈ newShape, 0 ≤ d) ∧ prodShape newShape = prodShape a.shape then
    .ok ⟨newShape, a.dtype⟩
  else .error .valueError

/-- The `sigma` parameter after the wrapper's
`sigma = float("inf") if sigma is None else sigma`: a finite double or
`+infinity`. -/
inductive RVal where
  | fin (q : ℚ)
  | inf
deriving DecidableEq, Repr

/-- `plyflatten(cloud, xoff, yoff, resolution, xsize, ysize, radius, sigma, std)`
(`rasterization.py` lines 19–87), embedded at the level the Python layer
decides.  `nb_points` and `cols` are `cloud.shape`; `xoff`, `yoff`,
`resolution`, `radius`, `sigma` are forwarded to the native
`lib.rasterize_cloud` untouched — the wrapper never inspects them.  The
kernel fills the two pre-allocated `float32` buffers in place; it neither
raises a Python exception nor changes any shape or dtype.  Line 84 reads
`raster = raster.dstack((raster, raster_std))`: `numpy.ndarray` has no
attribute `dstack` (it is the module-level `np.dstack`), so the `std=True`
branch raises `AttributeError`. -/
def plyflatten (nb_points cols : ℤ) (xoff yoff resolution : ℚ)
    (xsize ysize : ℤ) (radius : ℚ) (sigma : RVal) (std : Bool) :
    Except PyError NpArray :=
  let nb_extra_columns := cols - 2
  let raster_shape : List ℤ := [xsize * ysize, nb_extra_columns]
  match npZeros raster_shape .float32, npZeros raster_shape .float32 with
  | .ok raster, .ok _raster_std =>
      -- lib.rasterize_cloud(ascontiguousarray(cloud.astype(float64)), raster,
      --   raster_std, nb_points, nb_extra_columns, xoff, yoff, resolution,
      --   xsize, ysize, radius, sigma) : in-place fill of the buffers
      match npReshape raster [ysize, xsize, nb_extra_columns] with
      | .ok raster =>
          if std then .error .attributeError
          else .ok raster
      | .error e => .error e
  | .error e, _ => .error e
  | _, .error e => .error e

/-- `np.amin`: raises `ValueError` ("zero-size array to reduction operation")
on an empty array, otherwise the minimum. -/
def npAmin : List ℚ → Except PyError ℚ
  | [] => .error .valueError
  | x :: xs => .ok (xs.foldl min x)

/-- `np.amax`: raises `ValueError` on an empty array, otherwise the maximum. -/
def npAmax : List ℚ → Except PyError ℚ
  | [] => .error .valueError
  | x :: xs => .ok (xs.foldl max x)

/-- Column `j` of the cloud (`full_cloud[:, j]`).  On the rectangular numpy
arrays the source handles every row has the same width and `j` is in range,
so the `getD` default is never read on those inputs. -/
def column (cloud : Cloud) (j : ℕ) : List ℚ :=
  cloud.map (fun r => r.getD j 0)

/-- Region of interest `(xoff, yoff, xsize, ysize)`. -/
structure Roi where
  xoff : ℚ
  yoff : ℚ
  xsize : ℤ
  ysize : ℤ
deriving DecidableEq, Repr

/-- The ROI derivation of `plyflatten_from_plyfiles_list`
(`rasterization.py` lines 112–127), run when `roi is None`:
per-axis extrema of the point x/y coordinates, then
`xoff = floor(xmin/resolution)*resolution`,
`xsize = int(1 + floor((xmax-xoff)/resolution))`,
`yoff = ceil(ymax/resolution)*resolution`,
`ysize = int(1 - floor((ymin-yoff)/resolution))`.
(The Python `int(...)` truncation is exact here because its argument is
already integral.)  `np.amin` on an empty cloud raises `ValueError`. -/
def deriveRoi (full_cloud : Cloud) (resolution : ℚ) : Except PyError Roi :=
  match npAmin (column full_cloud 0), npAmax (column full_cloud 0),
        npAmin (column full_cloud 1), npAmax (column full_cloud 1) with
  | .ok xmin, .ok xmax, .ok ymin, .ok ymax =>
      let xoff : ℚ := ⌊xmin / resolution⌋ * resolution
      let xsize : ℤ := 1 + ⌊(xmax - xoff) / resolution⌋
      let yoff : ℚ := ⌈ymax / resolution⌉ * resolution
      let ysize : ℤ := 1 - ⌊(ymin - yoff) / resolution⌋
      .ok ⟨xoff, yoff, xsize, ysize⟩
  | .error e, _, _, _ => .error e
  | _, .error e, _, _ => .error e
  | _, _, .error e, _ => .error e
  | _, _, _, .error e => .error e

/-- A Python float as it occurs in the profile dict: `float("nan")` or an
ordinary value. -/
inductive PyFloat where
  | nan
  | val (q : ℚ)
deriving DecidableEq, Repr

/-- `affine.Affine(a, b, c, d, e, f)` — the six coefficients of the
georeferencing transform. -/
structure Affine6 where
  a : ℚ
  b : ℚ
  c : ℚ
  d : ℚ
  e : ℚ
  f : ℚ
deriving DecidableEq, Repr

/-- The profile dict built at `rasterization.py` lines 138–145.  The `crs`
entry comes from the external CRS collaborator (`utils`, out of scope per the
spec) and is omitted. -/
structure Profile where
  tiled : Bool
  compress : String
  predictor : ℤ
  nodata : PyFloat
  transform : Affine6
deriving DecidableEq, Repr

/-- `full_cloud.shape[1]`: width of the rectangular concatenated array,
i.e. the common row width (the width of the first row). -/
def rowWidth (c : Cloud) : ℤ := ((c.headD []).length : ℤ)

/-- `plyflatten_from_plyfiles_list(clouds_list, resolution, radius, roi,
sigma, std)` (`rasterization.py` lines 90–145).  The external ply reader
(`utils.read_3d_point_cloud_from_ply`) is out of scope, so the input is the
list of already-read per-file clouds.  `np.concatenate` of an empty sequence
raises `ValueError`; `sigma` defaults to `+infinity`; the profile is built
only after `plyflatten` returned. -/
def plyflatten_from_plyfiles_list (clouds_list : List Cloud) (resolution : ℚ)
    (radius : ℚ) (roi : Option Roi) (sigma : Option ℚ) (std : Bool) :
    Except PyError (NpArray × Profile) :=
  match clouds_list with
  | [] => .error .valueError
  | _ :: _ =>
    let full_cloud := clouds_list.flatten
    let roiE : Except PyError Roi :=
      match roi with
      | some r => .ok r
      | none => deriveRoi full_cloud resolution
    match roiE with
    | .error e => .error e
    | .ok r =>
      let sigma' : RVal := match sigma with | none => .inf | some s => .fin s
      match plyflatten (full_cloud.length : ℤ) (rowWidth full_cloud)
          r.xoff r.yoff resolution r.xsize r.ysize radius sigma' std with
      | .error e => .error e
      | .ok raster =>
        .ok (raster,
             { tiled := true
               compress := "deflate"
               predictor := 2
               nodata := .nan
               transform := ⟨resolution, 0, r.xoff, 0, -resolution, r.yoff⟩ })

/-- Per-axis minimum of a coordinate list, as `np.amin` computes it on a
non-empty array (0 on the empty list, where the source raises instead). -/
def listMin : List ℚ → ℚ
  | [] => 0
  | x :: xs => xs.foldl min x

/-- Per-axis maximum, as `np.amax` computes it on a non-empty array. -/
def listMax : List ℚ → ℚ
  | [] => 0
  | x :: xs => xs.foldl max x

/-- `xmin`: minimum x coordinate of the cloud. -/
def xmin (c : Cloud) : ℚ := listMin (column c 0)

/-- `xmax`: maximum x coordinate of the cloud. -/
def xmax (c : Cloud) : ℚ := listMax (column c 0)

/-- `ymin`: minimum y coordinate of the cloud. -/
def ymin (c : Cloud) : ℚ := listMin (column c 1)

/-- `ymax`: maximum y coordinate of the cloud. -/
def ymax (c : Cloud) : ℚ := listMax (column c 1)

/-- Modelled from the spec: the native kernel's nearest-cell assignment
(`libplyflatten.so`, whose C source is not in the repository snapshot).
Per §4.2 a point's enclosing cell is computed "via floor division of offset
coordinates by resolution", with y measured downward from `yoff`:
column `⌊(x - xoff)/resolution⌋`, row `⌊(yoff - y)/resolution⌋`. -/
def cellOf (r : Roi) (resolution : ℚ) (x y : ℚ) : ℤ × ℤ :=
  (⌊(x - r.xoff) / resolution⌋, ⌊(r.yoff - y) / resolution⌋)

/-!
## Aliasing model for the mutation claim

To state that `plyflatten` never mutates the caller's cloud we track array
objects in a small heap: references are allocation indices, the allocation
counter only grows, and writing to one reference leaves every other one
unchanged.  The native kernel receives three buffers (the cloud argument and
the two rasters) and may overwrite them arbitrarily in place; it is
quantified over, since its C source is not in the repository snapshot. -/

/-- The array heap: contents of each allocated array object, by reference. -/
abbrev Heap := ℕ → Cloud

/-- In-place write to one array object. -/
def writeRef (h : Heap) (i : ℕ) (v : Cloud) : Heap :=
  fun j => if j = i then v else h j

/-- An arbitrary in-place behavior of `lib.rasterize_cloud`: given the
contents of the cloud buffer and of the two raster buffers, the contents it
leaves in each of the three. -/
abbrev KernelWrite := Cloud → Cloud → Cloud → Cloud × Cloud × Cloud

/-- The heap effect of the `plyflatten` wrapper (`rasterization.py` lines
62–77): the caller's cloud lives at reference `r`; the wrapper passes
`np.ascontiguousarray(cloud.astype(np.float64))` — `astype` always allocates
a fresh array, modelled as a fresh reference holding a copy — and two fresh
zero buffers to the kernel, which overwrites the three buffers in place.
Returns the heap after the call and the new allocation counter. -/
def plyflattenHeap (kw : KernelWrite) (h : Heap) (n : ℕ) (r : ℕ) :
    Heap × ℕ :=
  let copyRef := n
  let rasterRef := n + 1
  let stdRef := n + 2
  let h1 := writeRef h copyRef (h r)
  let h2 := writeRef h1 rasterRef []
  let h3 := writeRef h2 stdRef []
  let w := kw (h3 copyRef) (h3 rasterRef) (h3 stdRef)
  let h4 := writeRef h3 copyRef w.1
  let h5 := writeRef h4 rasterRef w.2.1
  let h6 := writeRef h5 stdRef w.2.2
  (h6, n + 3)

/-! ## Helper lemmas -/

lemma foldl_min_le_init (xs : List ℚ) (a : ℚ) : xs.foldl min a ≤ a := by
  induction xs generalizing a with
  | nil => simp
  | cons x xs ih => exact le_trans (ih (min a x)) (min_le_left a x)

lemma foldl_min_le_mem : ∀ (xs : List ℚ) (a x : ℚ), x ∈ xs → xs.foldl min a ≤ x
  | y :: ys, a, x, hx => by
    rcases List.mem_cons.mp hx with h | h
    · subst h
      exact le_trans (foldl_min_le_init ys (min a x)) (min_le_right a x)
    · exact foldl_min_le_mem ys (min a y) x h

lemma le_foldl_max_init (xs : List ℚ) (a : ℚ) : a ≤ xs.foldl max a := by
  induction xs generalizing a with
  | nil => simp
  | cons x xs ih => exact le_trans (le_max_left a x) (ih (max a x))

lemma mem_le_foldl_max : ∀ (xs : List ℚ) (a x : ℚ), x ∈ xs → x ≤ xs.foldl max a
  | y :: ys, a, x, hx => by
    rcases List.mem_cons.mp hx with h | h
    · subst h
      exact le_trans (le_max_right a x) (le_foldl_max_init ys (max a x))
    · exact mem_le_foldl_max ys (max a y) x h

lemma listMin_le_mem {l : List ℚ} {x : ℚ} (hx : x ∈ l) : listMin l ≤ x := by
  cases l with
  | nil => cases hx
  | cons z zs =>
    rcases List.mem_cons.mp hx with h | h
    · subst h; exact foldl_min_le_init zs x
    · exact foldl_min_le_mem zs z x h

lemma mem_le_listMax {l : List ℚ} {x : ℚ} (hx : x ∈ l) : x ≤ listMax l := by
  cases l with
  | nil => cases hx
  | cons z zs =>
    rcases List.mem_cons.mp hx with h | h
    · subst h; exact le_foldl_max_init zs x
    · exact mem_le_foldl_max zs z x h

/-- The ROI derivation on a non-empty cloud, in closed form. -/
lemma deriveRoi_ok (cloud : Cloud) (res : ℚ) (hne : cloud ≠ []) :
    deriveRoi cloud res =
      .ok ⟨⌊xmin cloud / res⌋ * res,
           ⌈ymax cloud / res⌉ * res,
           1 + ⌊(xmax cloud - ⌊xmin cloud / res⌋ * res) / res⌋,
           1 - ⌊(ymin cloud - ⌈ymax cloud / res⌉ * res) / res⌋⟩ := by
  cases cloud with
  | nil => cases hne rfl
  | cons p rest =>
    simp [deriveRoi, npAmin, npAmax, column, xmin, xmax, ymin, ymax,
      listMin, listMax]

lemma floor_mul_le (q res : ℚ) (hres : 0 < res) : (⌊q / res⌋ : ℚ) * res ≤ q :=
  calc (⌊q / res⌋ : ℚ) * res ≤ (q / res) * res :=
        mul_le_mul_of_nonneg_right (Int.floor_le (q / res)) hres.le
    _ = q := div_mul_cancel₀ q (ne_of_gt hres)

lemma le_ceil_mul (q res : ℚ) (hres : 0 < res) : q ≤ (⌈q / res⌉ : ℚ) * res :=
  calc q = (q / res) * res := (div_mul_cancel₀ q (ne_of_gt hres)).symm
    _ ≤ (⌈q / res⌉ : ℚ) * res :=
        mul_le_mul_of_nonneg_right (Int.le_ceil (q / res)) hres.le

lemma listMin_le_listMax {l : List ℚ} (hl : l ≠ []) : listMin l ≤ listMax l := by
  cases l with
  | nil => cases hl rfl
  | cons z zs => exact le_trans (foldl_min_le_init zs z) (le_foldl_max_init zs z)

lemma column_ne_nil {cloud : Cloud} (hne : cloud ≠ []) (j : ℕ) :
    column cloud j ≠ [] := by
  cases cloud with
  | nil => cases hne rfl
  | cons p rest => simp [column]

lemma mem_column {cloud : Cloud} {p : Row} (hp : p ∈ cloud) (j : ℕ) :
    p.getD j 0 ∈ column cloud j := by
  rw [column]
  exact List.mem_map_of_mem _ hp

/-- The two integer floors of a value and of its negation never sum past 0. -/
lemma floor_add_floor_neg_nonpos (t : ℚ) : ⌊t⌋ + ⌊-t⌋ ≤ 0 := by
  have h : ((⌊t⌋ + ⌊-t⌋ : ℤ) : ℚ) ≤ 0 := by
    push_cast
    linarith [Int.floor_le t, Int.floor_le (-t)]
  exact_mod_cast h

/-! ## The claims -/

/-- C1 (code bug): the mean-only call does return the `(ysize, xsize, k)`
raster, but requesting std output (`std=True`) raises `AttributeError` at
`raster.dstack((raster, raster_std))` (`rasterization.py` line 84) instead of
returning the promised `(ysize, xsize, 2k)` raster: `numpy.ndarray` has no
attribute `dstack` (it is the module-level function `np.dstack`).  Evaluated
here at a one-point cloud with one extra column on a 1×1 grid. -/
theorem c1_std_dstack_attribute_error :
    plyflatten 1 3 0 1 1 1 1 0 .inf false = .ok ⟨[1, 1, 1], .float32⟩ ∧
    plyflatten 1 3 0 1 1 1 1 0 .inf true = .error .attributeError :=
  ⟨by with_unfolding_all rfl, by with_unfolding_all rfl⟩

/-- C2 (confirmed): on a non-empty cloud with positive resolution, the ROI
derived when no ROI is supplied satisfies exactly
`xoff = ⌊xmin/res⌋*res`, `xsize = 1 + ⌊(xmax-xoff)/res⌋`,
`yoff = ⌈ymax/res⌉*res`, `ysize = 1 - ⌊(ymin-yoff)/res⌋`, where
`xmin, xmax, ymin, ymax` are the per-axis extrema of the point x/y
coordinates. -/
theorem c2_derived_roi_formulas (cloud : Cloud) (res : ℚ) (hne : cloud ≠ [])
    (hres : 0 < res) (r : Roi) (h : deriveRoi cloud res = .ok r) :
    r.xoff = ⌊xmin cloud / res⌋ * res ∧
    r.xsize = 1 + ⌊(xmax cloud - r.xoff) / res⌋ ∧
    r.yoff = ⌈ymax cloud / res⌉ * res ∧
    r.ysize = 1 - ⌊(ymin cloud - r.yoff) / res⌋ := by
  rw [deriveRoi_ok cloud res hne] at h
  injection h with h
  subst h
  exact ⟨rfl, rfl, rfl, rfl⟩

/-- Witness for C2 at the one-point cloud `[[0, 0, 5]]`, resolution 1. -/
theorem c2_witness :
    ([[0, 0, 5]] : Cloud) ≠ [] ∧ (0 : ℚ) < 1 ∧
    ((⟨0, 0, 1, 1⟩ : Roi).xoff = ⌊xmin [[0, 0, 5]] / 1⌋ * 1 ∧
     (⟨0, 0, 1, 1⟩ : Roi).xsize =
       1 + ⌊(xmax [[0, 0, 5]] - (⟨0, 0, 1, 1⟩ : Roi).xoff) / 1⌋ ∧
     (⟨0, 0, 1, 1⟩ : Roi).yoff = ⌈ymax [[0, 0, 5]] / 1⌉ * 1 ∧
     (⟨0, 0, 1, 1⟩ : Roi).ysize =
       1 - ⌊(ymin [[0, 0, 5]] - (⟨0, 0, 1, 1⟩ : Roi).yoff) / 1⌋) :=
  ⟨by simp, by norm_num,
   c2_derived_roi_formulas [[0, 0, 5]] 1 (by simp) (by norm_num) ⟨0, 0, 1, 1⟩
     (by with_unfolding_all rfl)⟩

/-- C3 (confirmed): the derived ROI covers every point of the cloud — each
point's assigned cell, by floor division of its offset coordinates by the
resolution with y measured downward from `yoff`, lies within
`[0, xsize) × [0, ysize)`. -/
theorem c3_roi_covers_points (cloud : Cloud) (res : ℚ) (hne : cloud ≠ [])
    (hres : 0 < res) (r : Roi) (h : deriveRoi cloud res = .ok r)
    (p : Row) (hp : p ∈ cloud) :
    0 ≤ (cellOf r res (p.getD 0 0) (p.getD 1 0)).1 ∧
    (cellOf r res (p.getD 0 0) (p.getD 1 0)).1 < r.xsize ∧
    0 ≤ (cellOf r res (p.getD 0 0) (p.getD 1 0)).2 ∧
    (cellOf r res (p.getD 0 0) (p.getD 1 0)).2 < r.ysize := by
  rw [deriveRoi_ok cloud res hne] at h
  injection h with h
  subst h
  have hx1 : xmin cloud ≤ p.getD 0 0 := listMin_le_mem (mem_column hp 0)
  have hx2 : p.getD 0 0 ≤ xmax cloud := mem_le_listMax (mem_column hp 0)
  have hy1 : ymin cloud ≤ p.getD 1 0 := listMin_le_mem (mem_column hp 1)
  have hy2 : p.getD 1 0 ≤ ymax cloud := mem_le_listMax (mem_column hp 1)
  have hxoff : (⌊xmin cloud / res⌋ : ℚ) * res ≤ xmin cloud :=
    floor_mul_le (xmin cloud) res hres
  have hyoff : ymax cloud ≤ (⌈ymax cloud / res⌉ : ℚ) * res :=
    le_ceil_mul (ymax cloud) res hres
  simp only [cellOf]
  refine ⟨?_, ?_, ?_, ?_⟩
  · exact Int.floor_nonneg.mpr (div_nonneg (by linarith) hres.le)
  · have hmono : ⌊(p.getD 0 0 - (⌊xmin cloud / res⌋ : ℚ) * res) / res⌋ ≤
        ⌊(xmax cloud - (⌊xmin cloud / res⌋ : ℚ) * res) / res⌋ :=
      Int.floor_le_floor
        (div_le_div_of_nonneg_right (by linarith) hres.le)
    omega
  · exact Int.floor_nonneg.mpr (div_nonneg (by linarith) hres.le)
  · have hmono : ⌊((⌈ymax cloud / res⌉ : ℚ) * res - p.getD 1 0) / res⌋ ≤
        ⌊((⌈ymax cloud / res⌉ : ℚ) * res - ymin cloud) / res⌋ :=
      Int.floor_le_floor
        (div_le_div_of_nonneg_right (by linarith) hres.le)
    have hneg : (ymin cloud - (⌈ymax cloud / res⌉ : ℚ) * res) / res =
        -(((⌈ymax cloud / res⌉ : ℚ) * res - ymin cloud) / res) := by ring
    have hsum := floor_add_floor_neg_nonpos
      (((⌈ymax cloud / res⌉ : ℚ) * res - ymin cloud) / res)
    rw [hneg]
    omega

/-- Witness for C3 at the one-point cloud `[[0, 0, 5]]`, resolution 1:
the point's cell is `(0, 0)` inside the derived 1×1 grid. -/
theorem c3_witness :
    ([[0, 0, 5]] : Cloud) ≠ [] ∧ (0 : ℚ) < 1 ∧
    ([0, 0, 5] : Row) ∈ ([[0, 0, 5]] : Cloud) ∧
    (0 ≤ (cellOf ⟨0, 0, 1, 1⟩ 1 (([0, 0, 5] : Row).getD 0 0)
            (([0, 0, 5] : Row).getD 1 0)).1 ∧
     (cellOf ⟨0, 0, 1, 1⟩ 1 (([0, 0, 5] : Row).getD 0 0)
            (([0, 0, 5] : Row).getD 1 0)).1 < (⟨0, 0, 1, 1⟩ : Roi).xsize ∧
     0 ≤ (cellOf ⟨0, 0, 1, 1⟩ 1 (([0, 0, 5] : Row).getD 0 0)
            (([0, 0, 5] : Row).getD 1 0)).2 ∧
     (cellOf ⟨0, 0, 1, 1⟩ 1 (([0, 0, 5] : Row).getD 0 0)
            (([0, 0, 5] : Row).getD 1 0)).2 < (⟨0, 0, 1, 1⟩ : Roi).ysize) :=
  ⟨by simp, by norm_num, by simp,
   c3_roi_covers_points [[0, 0, 5]] 1 (by simp) (by norm_num) ⟨0, 0, 1, 1⟩
     (by with_unfolding_all rfl) [0, 0, 5] (by simp)⟩

/-- C4 (corrected — counterexample): on a cloud with zero points and no
explicit ROI the computation does fail before producing output, but with
numpy's `ValueError` (zero-size reduction in `np.amin`), not with an error
named `EmptyInputError` — no such error exists anywhere in the code. -/
theorem c4_counterexample :
    plyflatten_from_plyfiles_list [([] : Cloud)] 1 0 none none false
        = .error .valueError ∧
    plyflatten_from_plyfiles_list [([] : Cloud)] 1 0 none none false
        ≠ .error .emptyInputError := by
  have h1 : plyflatten_from_plyfiles_list [([] : Cloud)] 1 0 none none false
      = .error .valueError := by with_unfolding_all rfl
  exact ⟨h1, by rw [h1]; simp⟩

/-- C4 (amended): with zero points in total and no explicit ROI, the call
fails with `ValueError` (raised by `np.concatenate` on an empty list or by
`np.amin` on the empty coordinate array) before producing any output. -/
theorem c4_amended_empty_input_value_error (clouds_list : List Cloud)
    (res radius : ℚ) (sigma : Option ℚ) (std : Bool)
    (h : clouds_list.flatten = []) :
    plyflatten_from_plyfiles_list clouds_list res radius none sigma std
      = .error .valueError := by
  cases clouds_list with
  | nil => rfl
  | cons c cs =>
    simp only [plyflatten_from_plyfiles_list, h]
    simp [deriveRoi, column, npAmin, npAmax]

/-- Witness for C4 (amended) at a single ply file holding zero points. -/
theorem c4_witness :
    ([([] : Cloud)] : List Cloud).flatten = [] ∧
    plyflatten_from_plyfiles_list [([] : Cloud)] 1 0 none none true
      = .error .valueError :=
  ⟨rfl, c4_amended_empty_input_value_error [([] : Cloud)] 1 0 none true rfl⟩

/-- C5 (corrected — counterexample): a call with non-positive resolution,
negative radius AND non-positive finite sigma all at once does not fail at
all: the wrapper performs no parameter validation (no `InvalidParameterError`
exists in the code) and returns a normally-shaped raster. -/
theorem c5_counterexample :
    plyflatten 1 3 0 0 0 1 1 (-1) (.fin (-1)) false
        = .ok ⟨[1, 1, 1], .float32⟩ ∧
    plyflatten 1 3 0 0 0 1 1 (-1) (.fin (-1)) false
        ≠ .error .invalidParameterError := by
  have h1 : plyflatten 1 3 0 0 0 1 1 (-1) (.fin (-1)) false
      = .ok ⟨[1, 1, 1], .float32⟩ := by with_unfolding_all rfl
  exact ⟨h1, by rw [h1]; simp⟩

/-- C5 (amended): the rasterization validates no parameter: a call with a
non-positive resolution, a negative radius, or a non-positive finite sigma
is not rejected — on any well-shaped input it proceeds and returns the
normally-shaped raster, the invalid values being forwarded to the kernel
untouched. -/
theorem c5_amended_no_parameter_validation (nb_points cols : ℤ)
    (xoff yoff resolution : ℚ) (xsize ysize : ℤ) (radius : ℚ) (sigma : RVal)
    (hbad : resolution ≤ 0 ∨ radius < 0 ∨ ∃ s, sigma = .fin s ∧ s ≤ 0)
    (hcols : 2 ≤ cols) (hx : 0 ≤ xsize) (hy : 0 ≤ ysize) :
    plyflatten nb_points cols xoff yoff resolution xsize ysize radius sigma
        false = .ok ⟨[ysize, xsize, cols - 2], .float32⟩ := by
  have hz : npZeros [xsize * ysize, cols - 2] .float32
      = .ok ⟨[xsize * ysize, cols - 2], .float32⟩ := by
    rw [npZeros, if_pos]
    intro d hd
    rcases List.mem_cons.mp hd with h | h
    · subst h; exact mul_nonneg hx hy
    · simp only [List.mem_singleton] at h; subst h; omega
  have hr : npReshape ⟨[xsize * ysize, cols - 2], .float32⟩
      [ysize, xsize, cols - 2] = .ok ⟨[ysize, xsize, cols - 2], .float32⟩ := by
    rw [npReshape, if_pos]
    constructor
    · intro d hd
      rcases List.mem_cons.mp hd with h | h
      · subst h; exact hy
      rcases List.mem_cons.mp h with h | h
      · subst h; exact hx
      · simp only [List.mem_singleton] at h; subst h; omega
    · simp [prodShape]; ring
  simp only [plyflatten, hz, hr]
  simp

/-- Witness for C5 (amended): resolution −1, radius −1, sigma −1 on a
one-point, one-attribute cloud over a 2×3 grid. -/
theorem c5_witness :
    ((-1 : ℚ) ≤ 0 ∨ (-1 : ℚ) < 0 ∨ ∃ s, RVal.fin (-1) = .fin s ∧ s ≤ 0) ∧
    (2 : ℤ) ≤ 3 ∧ (0 : ℤ) ≤ 2 ∧ (0 : ℤ) ≤ 3 ∧
    plyflatten 1 3 0 0 (-1) 2 3 (-1) (.fin (-1)) false
      = .ok ⟨[3, 2, 1], .float32⟩ :=
  ⟨Or.inl (by norm_num), by norm_num, by norm_num, by norm_num,
   c5_amended_no_parameter_validation 1 3 0 0 (-1) 2 3 (-1) (.fin (-1))
     (Or.inl (by norm_num)) (by norm_num) (by norm_num) (by norm_num)⟩

/-- C6 (corrected — counterexample): a cloud with a single column fails with
numpy's `ValueError` ("negative dimensions are not allowed", since
`nb_extra_columns = 1 - 2 = -1`), not with an error named
`InvalidShapeError`; and a call with `xsize = 0` — a non-positive size —
does not fail at all: it returns an empty raster. -/
theorem c6_counterexample :
    plyflatten 1 1 0 0 1 1 1 0 .inf false = .error .valueError ∧
    plyflatten 1 1 0 0 1 1 1 0 .inf false ≠ .error .invalidShapeError ∧
    plyflatten 1 3 0 0 1 0 2 0 .inf false = .ok ⟨[2, 0, 1], .float32⟩ := by
  have h1 : plyflatten 1 1 0 0 1 1 1 0 .inf false = .error .valueError := by
    with_unfolding_all rfl
  exact ⟨h1, by rw [h1]; simp, by with_unfolding_all rfl⟩

/-- C6 (amended): when the cloud has fewer than 2 columns, or when
`xsize * ysize` is negative, the call fails — with numpy's `ValueError`
raised by `np.zeros` on a negative dimension, there being no
`InvalidShapeError` in the code; zero-sized grids are not rejected. -/
theorem c6_amended_shape_value_error (nb_points cols : ℤ)
    (xoff yoff resolution : ℚ) (xsize ysize : ℤ) (radius : ℚ) (sigma : RVal)
    (std : Bool) (h : cols < 2 ∨ xsize * ysize < 0) :
    plyflatten nb_points cols xoff yoff resolution xsize ysize radius sigma
        std = .error .valueError := by
  have hz : npZeros [xsize * ysize, cols - 2] .float32 = .error .valueError := by
    rw [npZeros, if_neg]
    push_neg
    rcases h with h | h
    · exact ⟨cols - 2, by simp, by omega⟩
    · exact ⟨xsize * ysize, by simp, by omega⟩
  simp only [plyflatten, hz]

/-- Witness for C6 (amended) at a one-column cloud. -/
theorem c6_witness :
    ((1 : ℤ) < 2 ∨ (1 : ℤ) * 1 < 0) ∧
    plyflatten 5 1 0 0 1 1 1 0 .inf true = .error .valueError :=
  ⟨Or.inl (by norm_num),
   c6_amended_shape_value_error 5 1 0 0 1 1 1 0 .inf true (Or.inl (by norm_num))⟩

/-- C7 (confirmed): the ROI derived from a non-empty cloud with positive
resolution satisfies the ROI invariant: `xsize` and `ysize` are positive and
`xoff`, `yoff` are integer multiples of the resolution. -/
theorem c7_roi_invariant (cloud : Cloud) (res : ℚ) (hne : cloud ≠ [])
    (hres : 0 < res) (r : Roi) (h : deriveRoi cloud res = .ok r) :
    0 < r.xsize ∧ 0 < r.ysize ∧
    (∃ m : ℤ, r.xoff = m * res) ∧ (∃ m : ℤ, r.yoff = m * res) := by
  rw [deriveRoi_ok cloud res hne] at h
  injection h with h
  subst h
  have hxm : xmin cloud ≤ xmax cloud := listMin_le_listMax (column_ne_nil hne 0)
  have hym : ymin cloud ≤ ymax cloud := listMin_le_listMax (column_ne_nil hne 1)
  have hxoff : (⌊xmin cloud / res⌋ : ℚ) * res ≤ xmin cloud :=
    floor_mul_le (xmin cloud) res hres
  have hyoff : ymax cloud ≤ (⌈ymax cloud / res⌉ : ℚ) * res :=
    le_ceil_mul (ymax cloud) res hres
  refine ⟨?_, ?_, ⟨⌊xmin cloud / res⌋, rfl⟩, ⟨⌈ymax cloud / res⌉, rfl⟩⟩
  · have h0 : 0 ≤ ⌊(xmax cloud - (⌊xmin cloud / res⌋ : ℚ) * res) / res⌋ :=
      Int.floor_nonneg.mpr (div_nonneg (by linarith) hres.le)
    dsimp only
    omega
  · have h0 : ⌊(ymin cloud - (⌈ymax cloud / res⌉ : ℚ) * res) / res⌋ ≤ 0 :=
      Int.floor_nonpos
        (div_nonpos_iff.mpr (Or.inr ⟨by linarith, hres.le⟩))
    dsimp only
    omega

/-- Witness for C7 at the one-point cloud `[[0, 0, 5]]`, resolution 1. -/
theorem c7_witness :
    ([[0, 0, 5]] : Cloud) ≠ [] ∧ (0 : ℚ) < 1 ∧
    (0 < (⟨0, 0, 1, 1⟩ : Roi).xsize ∧ 0 < (⟨0, 0, 1, 1⟩ : Roi).ysize ∧
     (∃ m : ℤ, (⟨0, 0, 1, 1⟩ : Roi).xoff = m * 1) ∧
     (∃ m : ℤ, (⟨0, 0, 1, 1⟩ : Roi).yoff = m * 1)) :=
  ⟨by simp, by norm_num,
   c7_roi_invariant [[0, 0, 5]] 1 (by simp) (by norm_num) ⟨0, 0, 1, 1⟩
     (by with_unfolding_all rfl)⟩

lemma npZeros_dtype {s : List ℤ} {d : DType} {a : NpArray}
    (h : npZeros s d = .ok a) : a.dtype = d := by
  rw [npZeros] at h
  split at h
  · injection h with h; subst h; rfl
  · cases h

lemma npReshape_dtype {a : NpArray} {ns : List ℤ} {b : NpArray}
    (h : npReshape a ns = .ok b) : b.dtype = a.dtype := by
  rw [npReshape] at h
  split at h
  · injection h with h; subst h; rfl
  · cases h

/-- C8 (confirmed): every successful call of `plyflatten_from_plyfiles_list`
returns a profile whose georeferencing affine transform is
`(resolution, 0, xoff, 0, -resolution, yoff)` for the ROI used (the one
supplied, or the derived one) and whose no-data value is the not-a-number
sentinel `float("nan")`. -/
theorem c8_profile_transform_nodata (clouds_list : List Cloud)
    (res radius : ℚ) (roi : Option Roi) (sigma : Option ℚ) (std : Bool)
    (raster : NpArray) (profile : Profile)
    (h : plyflatten_from_plyfiles_list clouds_list res radius roi sigma std
         = .ok (raster, profile)) :
    ∃ r : Roi,
      (roi = some r ∨ deriveRoi clouds_list.flatten res = .ok r) ∧
      profile.transform = ⟨res, 0, r.xoff, 0, -res, r.yoff⟩ ∧
      profile.nodata = .nan := by
  cases clouds_list with
  | nil => exact absurd h (by simp [plyflatten_from_plyfiles_list])
  | cons c cs =>
    simp only [plyflatten_from_plyfiles_list] at h
    split at h
    · exact absurd h (by simp)
    · next r0 heq =>
        split at h
        · exact absurd h (by simp)
        · next a hply =>
            injection h with h2
            injection h2 with ha hb
            subst hb
            refine ⟨r0, ?_, rfl, rfl⟩
            cases roi with
            | some r1 =>
                injection heq with heq
                subst heq
                exact Or.inl rfl
            | none => exact Or.inr heq

/-- Witness for C8 at a single one-point cloud, resolution 1, derived ROI. -/
theorem c8_witness :
    plyflatten_from_plyfiles_list [[[0, 0, 5]]] 1 0 none none false
      = .ok (⟨[1, 1, 1], .float32⟩,
             { tiled := true, compress := "deflate", predictor := 2,
               nodata := .nan, transform := ⟨1, 0, 0, 0, -1, 0⟩ }) ∧
    ∃ r : Roi,
      ((none : Option Roi) = some r ∨
        deriveRoi ([[[0, 0, 5]]] : List Cloud).flatten 1 = .ok r) ∧
      ({ tiled := true, compress := "deflate", predictor := 2,
         nodata := .nan, transform := ⟨1, 0, 0, 0, -1, 0⟩ } : Profile).transform
        = ⟨1, 0, r.xoff, 0, -1, r.yoff⟩ ∧
      ({ tiled := true, compress := "deflate", predictor := 2,
         nodata := .nan, transform := ⟨1, 0, 0, 0, -1, 0⟩ } : Profile).nodata
        = .nan :=
  ⟨by with_unfolding_all rfl,
   c8_profile_transform_nodata [[[0, 0, 5]]] 1 0 none none false
     ⟨[1, 1, 1], .float32⟩ _ (by with_unfolding_all rfl)⟩

/-- C9 (confirmed): the caller's cloud array is unchanged by `plyflatten`,
whatever the native kernel writes into the buffers it receives: the wrapper
hands the kernel `np.ascontiguousarray(cloud.astype(np.float64))` — `astype`
always allocates a fresh copy — and two fresh output buffers, so every write
lands on freshly allocated references, never on the caller's. -/
theorem c9_no_input_mutation (kw : KernelWrite) (h : Heap) (n r : ℕ)
    (hr : r < n) : (plyflattenHeap kw h n r).1 r = h r := by
  have h0 : r ≠ n := by omega
  have h1 : r ≠ n + 1 := by omega
  have h2 : r ≠ n + 2 := by omega
  simp [plyflattenHeap, writeRef, h0, h1, h2]

/-- Witness for C9: a kernel that blanks all three buffers still leaves the
caller's array `[[1, 2, 3]]` intact. -/
theorem c9_witness :
    0 < 1 ∧
    (plyflattenHeap (fun _ _ _ => ([], [], []))
        (fun _ => [[1, 2, 3]]) 1 0).1 0 = [[1, 2, 3]] :=
  ⟨by norm_num,
   c9_no_input_mutation (fun _ _ _ => ([], [], [])) (fun _ => [[1, 2, 3]]) 1 0
     (by norm_num)⟩

/-- C10 (confirmed): every raster `plyflatten` returns has dtype `float32` —
the wrapper allocates the output buffers with `np.zeros(..., dtype="float32")`
and reshaping preserves the dtype — even though the input cloud is passed to
the kernel as `float64`. -/
theorem c10_output_dtype_float32 (nb_points cols : ℤ)
    (xoff yoff resolution : ℚ) (xsize ysize : ℤ) (radius : ℚ) (sigma : RVal)
    (std : Bool) (a : NpArray)
    (h : plyflatten nb_points cols xoff yoff resolution xsize ysize radius
         sigma std = .ok a) : a.dtype = .float32 := by
  simp only [plyflatten] at h
  split at h
  · next raster _ hz _ =>
      split at h
      · next raster2 hre =>
          split at h
          · exact absurd h (by simp)
          · injection h with h
            subst h
            rw [npReshape_dtype hre, npZeros_dtype hz]
      · exact absurd h (by simp)
  · exact absurd h (by simp)
  · exact absurd h (by simp)

/-- Witness for C10: a concrete successful call returns a `float32` raster. -/
theorem c10_witness :
    plyflatten 1 4 0 0 1 2 2 0 .inf false = .ok ⟨[2, 2, 2], .float32⟩ ∧
    (⟨[2, 2, 2], .float32⟩ : NpArray).dtype = .float32 :=
  ⟨by with_unfolding_all rfl,
   c10_output_dtype_float32 1 4 0 0 1 2 2 0 .inf false ⟨[2, 2, 2], .float32⟩
     (by with_unfolding_all rfl)⟩

end Plyflatten
